import Mathlib

/-!
Verification of the point-cloud generator and geometry-expansion pipeline
in src/million-points.cpp. Pure functions of the program are embedded as
Lean definitions; the stateful frame loop and its GLFW callbacks are
embedded as explicit state passing over a record of the program's global
and loop-local state. C doubles/floats are idealised as real numbers,
machine ints as Int/Nat.
-/

/-! ## Sampler (generate_vertices, urand; lines 168-196) -/

/-- RAND_MAX of glibc, the platform the program targets (stdlib.h). -/
def RAND_MAX : ℕ := 2147483647

/-- urand (lines 168-171): `1.0*rand()/RAND_MAX`, as a function of the value
`k` returned by rand(), which the C contract draws from 0..RAND_MAX. -/
noncomputable def urand (k : ℕ) : ℝ := (k : ℝ) / (RAND_MAX : ℝ)

/-- Angle of one generated point (line 188): `theta = 2*M_PI*urand()`. -/
noncomputable def theta (k : ℕ) : ℝ := 2 * Real.pi * urand k

/-- Mean of the radius distribution (line 176): `double middle = 0.5`. -/
def middle : ℝ := 0.5

/-- Standard deviation of the radius distribution (line 177): `double std = 0.08`. -/
def std : ℝ := 0.08

/-- Body of the generation loop (lines 187-192): given the radius draw `r`
from the normal distribution and the rand() output `k` underlying theta,
produce the point `(r*cos(theta), r*sin(theta))`. -/
noncomputable def genPoint (r : ℝ) (k : ℕ) : ℝ × ℝ :=
  (r * Real.cos (theta k), r * Real.sin (theta k))

/-- generate_vertices (lines 173-196) generalised over the point count `n`
(the reference hard-codes n = 100000000) and parametrised by the stream of
normal-distribution draws and the stream of rand() outputs. The loop fills
index i from the i-th draw of each stream. -/
noncomputable def generate_vertices (n : ℕ) (normals : ℕ → ℝ) (rands : ℕ → ℕ) :
    List (ℝ × ℝ) :=
  (List.range n).map (fun i => genPoint (normals i) (rands i))

/-- The reference point count (line 181): `int n = 100000000`. -/
def point_count : ℕ := 100000000

/-! ## Geometry shader (geom_shader_text, lines 55-83) -/

/-- A GLSL vec4, as used for gl_Position. -/
structure Vec4 where
  x : ℝ
  y : ℝ
  z : ℝ
  w : ℝ

/-- Componentwise vec4 addition, as in `gl_in[i].gl_Position + vec4(...)`. -/
def vec4_add (a b : Vec4) : Vec4 := ⟨a.x + b.x, a.y + b.y, a.z + b.z, a.w + b.w⟩

/-- Circle radius in NDC (line 63): `float d = 0.01`. -/
def circle_d : ℝ := 0.01

/-- Polygon order (line 64): `int n = 8; // octogons`. -/
def polygon_n : ℕ := 8

/-- Declared emission budget (line 58): `layout(triangle_strip, max_vertices=96)`. -/
def max_vertices : ℕ := 96

/-- Rim angle (line 75): `float theta = j*(2*M_PI/n)`. -/
noncomputable def geom_theta (n : ℕ) (j : ℕ) : ℝ := (j : ℝ) * (2 * Real.pi / (n : ℝ))

/-- Vertices emitted by iteration `j` of the inner loop (lines 68-80): a
center vertex when `j % 2 == 0`, then always the rim vertex
`p + vec4(d*cos(theta)*xs, d*sin(theta), 0, 0)`. -/
noncomputable def emit_step (xs d : ℝ) (n : ℕ) (p : Vec4) (j : ℕ) : List Vec4 :=
  (if j % 2 = 0 then [p] else []) ++
    [vec4_add p ⟨d * Real.cos (geom_theta n j) * xs, d * Real.sin (geom_theta n j), 0, 0⟩]

/-- The inner loop `for (int j=0; j<m; j++)` unrolled: vertices emitted by
the first `m` iterations, in emission order. -/
noncomputable def emit_loop (xs d : ℝ) (n : ℕ) (p : Vec4) : ℕ → List Vec4
  | 0 => []
  | j + 1 => emit_loop xs d n p j ++ emit_step xs d n p j

/-- All vertices the geometry shader emits for one input point `p` before
EndPrimitive (lines 68-81): the loop bound is `n + 2`. -/
noncomputable def geom_emit_point (xs d : ℝ) (n : ℕ) (p : Vec4) : List Vec4 :=
  emit_loop xs d n p (n + 2)

/-! ## Shader compilation error path (die, compile_shader; lines 119-166) -/

/-- GL_VERTEX_SHADER (0x8B31) from the GL headers. -/
def GL_VERTEX_SHADER : ℕ := 35633

/-- GL_FRAGMENT_SHADER (0x8B30) from the GL headers. -/
def GL_FRAGMENT_SHADER : ℕ := 35632

/-- GL_GEOMETRY_SHADER (0x8DD9) from the GL headers. -/
def GL_GEOMETRY_SHADER : ℕ := 36313

/-- The stage-name switch of compile_shader (lines 147-158): vertex and
fragment are the only cases; everything else, including the geometry
shader, takes the default branch. -/
def shader_type_str (t : ℕ) : String :=
  if t = GL_VERTEX_SHADER then "vertex"
  else if t = GL_FRAGMENT_SHADER then "fragment"
  else "unknown type"

/-- The diagnostic printed on compile failure (line 162):
`die("%s: %s\n", shader_type_str.c_str(), errorLog.c_str())`. -/
def compile_diag (t : ℕ) (log : String) : String :=
  shader_type_str t ++ ": " ++ log ++ "\n"

/-- Process exit status produced by die (line 125): `exit(-1)` is observed
by the parent as status `-1 mod 256`. -/
def die_status : ℕ := ((-1 : ℤ) % 256).toNat

/-- compile_shader (lines 128-166) restricted to its observable outcome:
on success it returns the shader handle, on compile failure it dies with
the stage diagnostic and a nonzero status. `isCompiled` is the
GL_COMPILE_STATUS the driver reports for this source, `log` the driver's
info log. -/
def compile_shader (t : ℕ) (isCompiled : Bool) (log : String) :
    Except (String × ℕ) Unit :=
  if isCompiled then .ok () else .error (compile_diag t log, die_status)

/-! ## Program state, callbacks and frame loop (lines 41-43, 100-117, 255-302) -/

/-- GLFW_KEY_ESCAPE from GLFW/glfw3.h. -/
def GLFW_KEY_ESCAPE : ℤ := 256

/-- GLFW_PRESS from GLFW/glfw3.h. -/
def GLFW_PRESS : ℤ := 1

/-- GLFW_TRUE from GLFW/glfw3.h. -/
def GLFW_TRUE : ℤ := 1

/-- EXIT_SUCCESS from stdlib.h. -/
def EXIT_SUCCESS : ℤ := 0

/-- The program's mutable state: the globals `vertices`, `gWidth`,
`gHeight`, `need_redraw` (lines 29, 41-43), the GPU-resident copy of the
point buffer made by glBufferData (line 232), the window's should-close
flag, and the loop-local `frameCount`, `previousTime` (lines 252-253). -/
structure RenderState where
  hostVertices : List (ℝ × ℝ)
  gpuBuffer : List (ℝ × ℝ)
  gWidth : ℤ
  gHeight : ℤ
  needRedraw : Bool
  shouldClose : Bool
  frameCount : ℤ
  previousTime : ℚ

/-- State right before the frame loop: `gWidth = 640`, `gHeight = 480`,
`need_redraw = true` (lines 41-43), buffers as uploaded. -/
def init_state : RenderState :=
  ⟨[], [], 640, 480, true, false, 0, 0⟩

/-- glfwSetWindowShouldClose, as it acts on the modelled state. -/
def glfwSetWindowShouldClose (v : ℤ) (s : RenderState) : RenderState :=
  { s with shouldClose := if v = 0 then false else true }

/-- key_callback (lines 100-104): on Escape press, set the should-close
flag; otherwise do nothing. -/
def key_callback (key scancode action mods : ℤ) (s : RenderState) : RenderState :=
  if key = GLFW_KEY_ESCAPE ∧ action = GLFW_PRESS then
    glfwSetWindowShouldClose GLFW_TRUE s
  else s

/-- window_size_callback (lines 106-111): store the new width and height
unconditionally and request a redraw. -/
def window_size_callback (w h : ℤ) (s : RenderState) : RenderState :=
  { s with gWidth := w, gHeight := h, needRedraw := true }

/-- window_refresh_callback (lines 113-117): swap and request a redraw. -/
def window_refresh_callback (s : RenderState) : RenderState :=
  { s with needRedraw := true }

/-- One pass of the loop body (lines 255-297) as it acts on the state,
with `now` the value of glfwGetTime at line 281: in the redraw branch the
FPS bookkeeping runs (reset on a full second, then increment) and
`need_redraw` is reassigned true (line 291); the else branch only sleeps. -/
def frameStep (now : ℚ) (s : RenderState) : RenderState :=
  if s.needRedraw then
    if now - s.previousTime ≥ 1 then
      { s with frameCount := 0 + 1, previousTime := now, needRedraw := true }
    else
      { s with frameCount := s.frameCount + 1, needRedraw := true }
  else s

/-- Outcome of one `while (!glfwWindowShouldClose(window))` check. -/
inductive LoopStep where
  | next (s : RenderState)
  | exitWith (code : ℤ)

/-- One iteration of the frame loop from its guard: if the should-close
flag is set the loop exits and main reaches `exit(EXIT_SUCCESS)`
(line 302); otherwise the body runs. -/
def loop_iterate (now : ℚ) (s : RenderState) : LoopStep :=
  if s.shouldClose then .exitWith EXIT_SUCCESS else .next (frameStep now s)

/-- The resolution uniform main supplies each frame (line 276):
`glUniform2i(res_location, gWidth, gHeight)`. -/
def frame_resolution (s : RenderState) : ℤ × ℤ := (s.gWidth, s.gHeight)

/-- The aspect-correction factor of the geometry shader (line 65):
`float xs = 1.0*Resolution.y/Resolution.x`; there is no zero guard in the
source, so the division is modelled as partial: none when Resolution.x
is zero. -/
def shader_xs (resX resY : ℤ) : Option ℚ :=
  if resX = 0 then none else some ((resY : ℚ) / (resX : ℚ))

/-! ## GL command traces for the upload-once invariant (lines 228-232, 255-297) -/

/-- The GL calls of interest, in source order. -/
inductive GLCmd where
  | enable
  | blendFunc
  | genBuffers
  | bindBuffer
  | bufferData
  | viewport
  | clear
  | useProgram
  | uniformMatrix4fv
  | uniform2i
  | drawArrays
  | swapBuffers
deriving DecidableEq

/-- Whether a GL call uploads buffer data. -/
def is_upload : GLCmd → Bool
  | .bufferData => true
  | _ => false

/-- Number of buffer uploads in a trace. -/
def upload_count (l : List GLCmd) : ℕ := l.countP is_upload

/-- The setup sequence before the frame loop (lines 228-232): the single
glBufferData is here. -/
def setup_commands : List GLCmd :=
  [.enable, .blendFunc, .genBuffers, .bindBuffer, .bufferData]

/-- The GL calls of one redraw pass (lines 266-279). -/
def frame_commands : List GLCmd :=
  [.viewport, .clear, .useProgram, .uniformMatrix4fv, .uniform2i, .drawArrays,
   .swapBuffers]

/-- The GL trace of `k` frame iterations. -/
def frames_trace : ℕ → List GLCmd
  | 0 => []
  | k + 1 => frames_trace k ++ frame_commands

/-- The GL trace of a whole run with `k` frames: setup, then the loop. -/
def main_trace (k : ℕ) : List GLCmd := setup_commands ++ frames_trace k

/-! ## Per-frame transform (lines 259, 269-272)

The matrix helpers come from `linmath.h`, which the source includes but
which is not part of src/. -/

/-- A linmath mat4x4 over the reals. -/
abbrev Mat4 := Matrix (Fin 4) (Fin 4) ℝ

/-- Modelled from the spec: `mat4x4_identity` of linmath.h (not under
src/) writes the identity matrix. -/
def mat4x4_identity : Mat4 := 1

/-- Modelled from the spec: the Z-rotation matrix linmath.h builds for
`mat4x4_rotate_Z`, a rotation by `t` radians about the Z axis. -/
noncomputable def rot_z_matrix (t : ℝ) : Mat4 :=
  Matrix.of
    !![Real.cos t, -Real.sin t, 0, 0;
       Real.sin t,  Real.cos t, 0, 0;
       0, 0, 1, 0;
       0, 0, 0, 1]

/-- Modelled from the spec: `mat4x4_mul` of linmath.h (not under src/) is
matrix multiplication. -/
def mat4x4_mul (a b : Mat4) : Mat4 := a * b

/-- Modelled from the spec: `mat4x4_rotate_Z(Q, M, t)` of linmath.h sets
`Q = M * R_z(t)`. -/
noncomputable def mat4x4_rotate_Z (M : Mat4) (t : ℝ) : Mat4 :=
  mat4x4_mul M (rot_z_matrix t)

/-- Modelled from the spec: `mat4x4_ortho` of linmath.h (not under src/),
the standard orthographic projection for the box `[l,r]×[b,t]×[n,f]`. -/
noncomputable def mat4x4_ortho (l r b t n f : ℝ) : Mat4 :=
  Matrix.of
    !![2/(r-l), 0, 0, -((r+l)/(r-l));
       0, 2/(t-b), 0, -((t+b)/(t-b));
       0, 0, -2/(f-n), -((f+n)/(f-n));
       0, 0, 0, 1]

/-- The MVP uniform main computes each frame (lines 269-272): start from
the identity, rotate about Z by the elapsed time, build the orthographic
projection for the current aspect ratio, and multiply `p * m`. -/
noncomputable def frame_mvp (time aspect : ℝ) : Mat4 :=
  mat4x4_mul (mat4x4_ortho (-aspect) aspect (-1) 1 1 (-1))
    (mat4x4_rotate_Z mat4x4_identity time)

/-! ## Determinism of generation (lines 175, 168-171; no srand anywhere) -/

/-- The C library's pseudo-random machinery, abstracted as seed-indexed
streams: `normal_stream s i` is the i-th draw of
`normal_distribution(middle,std)` over a `default_random_engine` seeded
with `s`, and `rand_stream s i` the i-th rand() output after `srand(s)`. -/
structure LibRandom where
  normal_stream : ℕ → ℕ → ℝ
  rand_stream : ℕ → ℕ → ℕ

/-- The seed both sources start from when the program does not seed them:
`default_random_engine`'s default seed and the C standard's implicit
`srand(1)` are both 1. -/
def default_seed : ℕ := 1

/-- One run of the generation phase. The program default-constructs its
engine (line 175) and never calls srand, so the streams are taken at
`default_seed`; `entropy` is the run-specific seed material a seeding
program would have consumed, and it is ignored exactly because the source
contains no seeding call. -/
noncomputable def program_generate (lib : LibRandom) (entropy : ℕ × ℕ) (n : ℕ) :
    List (ℝ × ℝ) :=
  generate_vertices n (lib.normal_stream default_seed) (lib.rand_stream default_seed)

/-! ## Helper lemmas -/

/-- Each inner-loop iteration emits two vertices on even `j` and one on
odd `j`. -/
lemma emit_step_length (xs d : ℝ) (n : ℕ) (p : Vec4) (j : ℕ) :
    (emit_step xs d n p j).length = if j % 2 = 0 then 2 else 1 := by
  unfold emit_step
  split <;> rfl

/-- Running the inner loop for `m` iterations emits `m + (m+1)/2`
vertices. -/
lemma emit_loop_length (xs d : ℝ) (n : ℕ) (p : Vec4) (m : ℕ) :
    (emit_loop xs d n p m).length = m + (m + 1) / 2 := by
  induction m with
  | zero => rfl
  | succ k ih =>
      rw [emit_loop, List.length_append, ih, emit_step_length]
      split <;> omega

/-- No frame iteration contains a buffer upload. -/
lemma frames_trace_upload_count (k : ℕ) : upload_count (frames_trace k) = 0 := by
  induction k with
  | zero => rfl
  | succ k ih =>
      rw [frames_trace, upload_count, List.countP_append]
      rw [upload_count] at ih
      rw [ih]
      rfl

/-! ## Claims -/

/-- Claim C1 (counterexample): at the reference polygon order n = 8, the
geometry shader emits 15 vertices for an input point, not n + 2 = 10: the
inner loop body emits a rim vertex on every one of its n + 2 iterations
and an extra center vertex on the even ones. -/
theorem geom_emit_count_not_n_plus_two :
    (geom_emit_point 1 circle_d 8 ⟨0, 0, 0, 1⟩).length = 15 ∧
    (geom_emit_point 1 circle_d 8 ⟨0, 0, 0, 1⟩).length ≠ 8 + 2 := by
  have h : (geom_emit_point 1 circle_d 8 ⟨0, 0, 0, 1⟩).length = 15 := by
    rw [geom_emit_point, emit_loop_length]
  exact ⟨h, by rw [h]; omega⟩

/-- Claim C1 (amended): for every input point and polygon order n, the
geometry-expansion stage emits exactly (n+2) + (n+3)/2 vertices for that
point — a rim vertex on each of the n+2 inner iterations plus a center
vertex on each even iteration — which is 15 (not n+2) at the reference
order n = 8. -/
theorem geom_emit_count (xs d : ℝ) (p : Vec4) (n : ℕ) :
    (geom_emit_point xs d n p).length = (n + 2) + (n + 3) / 2 ∧
    (geom_emit_point xs d 8 p).length = 15 ∧
    polygon_n = 8 := by
  refine ⟨?_, ?_, rfl⟩
  · rw [geom_emit_point, emit_loop_length]
  · rw [geom_emit_point, emit_loop_length]

/-- Claim C6: at the configured polygon order n = 8, the number of
vertices the geometry shader emits per input point (15) never exceeds the
declared emission budget max_vertices = 96. -/
theorem geom_emit_within_budget (xs d : ℝ) (p : Vec4) :
    (geom_emit_point xs d polygon_n p).length ≤ max_vertices := by
  rw [geom_emit_point, emit_loop_length]
  decide

/-- Claim C3: for every n ≥ 0 the generator returns a buffer of exactly
length n, with n = 0 yielding the empty buffer; the reference instantiates
n = 100,000,000. -/
theorem generate_vertices_length (normals : ℕ → ℝ) (rands : ℕ → ℕ) (n : ℕ) :
    (generate_vertices n normals rands).length = n ∧
    generate_vertices 0 normals rands = [] ∧
    point_count = 100000000 := by
  refine ⟨?_, rfl, rfl⟩
  rw [generate_vertices, List.length_map, List.length_range]

/-- Claim C2 (counterexample): the angle is not always below 2π: when
rand() returns RAND_MAX — a value inside rand()'s contract — urand is 1
and theta equals 2π exactly. -/
theorem theta_can_reach_two_pi :
    RAND_MAX ≤ RAND_MAX ∧ ¬ theta RAND_MAX < 2 * Real.pi := by
  have h : theta RAND_MAX = 2 * Real.pi := by
    rw [theta, urand]
    rw [div_self (by norm_num [RAND_MAX])]
    rw [mul_one]
  exact ⟨le_refl _, by rw [h]; exact lt_irrefl _⟩

/-- Claim C2 (amended): every generated point has coordinates
x = r·cos(θ) and y = r·sin(θ), with the radius distribution parameters
μ = 0.5 and σ = 0.08 as configured, and the angle θ = 2π·(rand()/RAND_MAX)
lies in the closed interval [0, 2π]; θ = 2π itself is attained when
rand() returns RAND_MAX, so θ < 2π does not hold for every point. -/
theorem point_polar_form_theta_range (r : ℝ) (k : ℕ) (hk : k ≤ RAND_MAX) :
    0 ≤ theta k ∧ theta k ≤ 2 * Real.pi ∧
    genPoint r k = (r * Real.cos (theta k), r * Real.sin (theta k)) ∧
    middle = 0.5 ∧ std = 0.08 := by
  have hpos : (0 : ℝ) < (RAND_MAX : ℝ) := by norm_num [RAND_MAX]
  have hu0 : 0 ≤ urand k := by
    rw [urand]; positivity
  have hu1 : urand k ≤ 1 := by
    rw [urand, div_le_one hpos]
    exact_mod_cast hk
  have h2pi : (0 : ℝ) ≤ 2 * Real.pi := by positivity
  refine ⟨?_, ?_, rfl, rfl, rfl⟩
  · rw [theta]; exact mul_nonneg h2pi hu0
  · rw [theta]
    calc 2 * Real.pi * urand k ≤ 2 * Real.pi * 1 :=
          mul_le_mul_of_nonneg_left hu1 h2pi
      _ = 2 * Real.pi := mul_one _

/-- Witness for C2's amended theorem at r = 1, k = 0. -/
theorem point_polar_form_theta_range_witness :
    0 ≤ theta 0 ∧ theta 0 ≤ 2 * Real.pi ∧
    genPoint 1 0 = (1 * Real.cos (theta 0), 1 * Real.sin (theta 0)) ∧
    middle = 0.5 ∧ std = 0.08 :=
  point_polar_form_theta_range 1 0 (by decide)

/-- Claim C4 (counterexample): a failing geometry-shader compilation is
not reported under any of the names "vertex", "fragment", "geometry": the
switch in compile_shader has no GL_GEOMETRY_SHADER case, so the diagnostic
names the stage "unknown type". -/
theorem geometry_stage_misnamed :
    shader_type_str GL_GEOMETRY_SHADER = "unknown type" ∧
    ¬ (shader_type_str GL_GEOMETRY_SHADER = "vertex" ∨
       shader_type_str GL_GEOMETRY_SHADER = "fragment" ∨
       shader_type_str GL_GEOMETRY_SHADER = "geometry") ∧
    compile_shader GL_GEOMETRY_SHADER false "bad source" =
      .error ("unknown type" ++ ": " ++ "bad source" ++ "\n", 255) := by
  refine ⟨rfl, ?_, rfl⟩
  decide

/-- Claim C4 (amended): whenever compilation of a shader stage fails, the
program emits a diagnostic of the form "stage: log" and terminates with
the non-zero exit status 255; the stage is named "vertex" for the vertex
shader and "fragment" for the fragment shader, but a failing geometry
stage is named "unknown type", because the switch lacks a geometry case. -/
theorem compile_failure_diag_and_status (log : String) :
    compile_shader GL_VERTEX_SHADER false log =
      .error ("vertex" ++ ": " ++ log ++ "\n", 255) ∧
    compile_shader GL_FRAGMENT_SHADER false log =
      .error ("fragment" ++ ": " ++ log ++ "\n", 255) ∧
    compile_shader GL_GEOMETRY_SHADER false log =
      .error ("unknown type" ++ ": " ++ log ++ "\n", 255) ∧
    die_status = 255 ∧ die_status ≠ 0 ∧
    (∀ t : ℕ, compile_shader t true log = .ok ()) :=
  ⟨rfl, rfl, rfl, rfl, by decide, fun _ => rfl⟩

/-- Claim C5: every frame's single uniform matrix is
Projection × Rotation_Z(t) with the rotation angle equal to the elapsed
time in seconds, and at t = 0 it reduces to the projection composed with
the identity rotation. -/
theorem frame_mvp_eq_proj_mul_rot (time aspect : ℝ) :
    frame_mvp time aspect =
      mat4x4_mul (mat4x4_ortho (-aspect) aspect (-1) 1 1 (-1)) (rot_z_matrix time) ∧
    rot_z_matrix 0 = mat4x4_identity ∧
    frame_mvp 0 aspect = mat4x4_ortho (-aspect) aspect (-1) 1 1 (-1) := by
  have h0 : rot_z_matrix 0 = (1 : Mat4) := by
    rw [rot_z_matrix]
    ext i j
    fin_cases i <;> fin_cases j <;>
      simp [Matrix.one_apply, Matrix.vecHead, Matrix.vecTail]
  have h1 : frame_mvp time aspect =
      mat4x4_mul (mat4x4_ortho (-aspect) aspect (-1) 1 1 (-1)) (rot_z_matrix time) := by
    simp only [frame_mvp, mat4x4_rotate_Z, mat4x4_mul, mat4x4_identity, one_mul]
  refine ⟨h1, h0, ?_⟩
  simp only [frame_mvp, mat4x4_rotate_Z, mat4x4_mul, mat4x4_identity, one_mul,
    h0, mul_one]

/-- Claim C7: the point buffer is uploaded exactly once per run, by the
setup sequence that precedes the frame loop, and no frame iteration and
no event callback re-uploads it or mutates the host or GPU copy of the
point data. -/
theorem buffer_upload_once_and_immutable :
    (∀ k : ℕ, upload_count (main_trace k) = 1) ∧
    upload_count setup_commands = 1 ∧
    upload_count frame_commands = 0 ∧
    (∀ now s, (frameStep now s).gpuBuffer = s.gpuBuffer ∧
      (frameStep now s).hostVertices = s.hostVertices) ∧
    (∀ key sc a m s, (key_callback key sc a m s).gpuBuffer = s.gpuBuffer ∧
      (key_callback key sc a m s).hostVertices = s.hostVertices) ∧
    (∀ w h s, (window_size_callback w h s).gpuBuffer = s.gpuBuffer ∧
      (window_size_callback w h s).hostVertices = s.hostVertices) ∧
    (∀ s, (window_refresh_callback s).gpuBuffer = s.gpuBuffer ∧
      (window_refresh_callback s).hostVertices = s.hostVertices) := by
  refine ⟨?_, rfl, rfl, ?_, ?_, ?_, ?_⟩
  · intro k
    rw [main_trace, upload_count, List.countP_append]
    have h := frames_trace_upload_count k
    rw [upload_count] at h
    rw [h]
    rfl
  · intro now s
    rw [frameStep]
    split
    · split <;> exact ⟨rfl, rfl⟩
    · exact ⟨rfl, rfl⟩
  · intro key sc a m s
    rw [key_callback]
    split
    · exact ⟨rfl, rfl⟩
    · exact ⟨rfl, rfl⟩
  · intro w h s
    exact ⟨rfl, rfl⟩
  · intro s
    exact ⟨rfl, rfl⟩

/-- Claim C8: generation is deterministic across runs. The program never
seeds either pseudo-random source (no srand call, a default-constructed
engine), so both streams start from the fixed default seed; two runs with
the same count n therefore produce identical point sequences, whatever
run-specific entropy was available, and each equals the canonical
sequence drawn from the default seed. -/
theorem generation_deterministic (lib : LibRandom) (e1 e2 : ℕ × ℕ) (n : ℕ) :
    program_generate lib e1 n = program_generate lib e2 n ∧
    program_generate lib e1 n =
      generate_vertices n (lib.normal_stream default_seed)
        (lib.rand_stream default_seed) ∧
    default_seed = 1 :=
  ⟨rfl, rfl, rfl⟩

/-- Claim C9: the geometry shader computes its aspect factor as
Resolution.y / Resolution.x with no zero guard — the division is defined
exactly when Resolution.x ≠ 0 — while a resize notification carrying
width = 0 is stored verbatim and handed to the per-frame resolution
uniform unchecked. -/
theorem aspect_division_precondition (s : RenderState) (w h : ℤ) :
    (window_size_callback 0 h s).gWidth = 0 ∧
    frame_resolution (window_size_callback 0 h s) = (0, h) ∧
    shader_xs 0 h = none ∧
    ((shader_xs w h).isSome ↔ w ≠ 0) ∧
    (w ≠ 0 → shader_xs w h = some ((h : ℚ) / (w : ℚ))) := by
  refine ⟨rfl, rfl, rfl, ?_, ?_⟩
  · rw [shader_xs]
    split
    · simp_all
    · simp_all
  · intro hw
    rw [shader_xs, if_neg hw]

/-- Claim C10: an Escape press sets the window's should-close flag, after
which the loop guard exits and the process terminates with status
EXIT_SUCCESS = 0 — the same path the external close signal takes through
glfwSetWindowShouldClose — while a key event for any other key leaves the
state unchanged. -/
theorem escape_closes_other_keys_noop (s t : RenderState)
    (key sc a m : ℤ) (now : ℚ) (hk : key ≠ GLFW_KEY_ESCAPE) :
    (key_callback GLFW_KEY_ESCAPE sc GLFW_PRESS m s).shouldClose = true ∧
    loop_iterate now (key_callback GLFW_KEY_ESCAPE sc GLFW_PRESS m s) =
      .exitWith EXIT_SUCCESS ∧
    loop_iterate now (glfwSetWindowShouldClose GLFW_TRUE t) =
      .exitWith EXIT_SUCCESS ∧
    EXIT_SUCCESS = 0 ∧
    key_callback key sc a m s = s := by
  have hesc : (key_callback GLFW_KEY_ESCAPE sc GLFW_PRESS m s).shouldClose = true := by
    rw [key_callback, if_pos ⟨rfl, rfl⟩, glfwSetWindowShouldClose]
    rfl
  refine ⟨hesc, ?_, ?_, rfl, ?_⟩
  · rw [loop_iterate, if_pos hesc]
  · rw [loop_iterate, if_pos (by rw [glfwSetWindowShouldClose]; rfl)]
  · rw [key_callback, if_neg (by intro hc; exact hk hc.1)]

/-- Witness for C10's theorem: the claim instantiated at the initial
state, scancode 0, mods 0, the key 65 (GLFW_KEY_A) with action press, and
loop time 0. -/
theorem escape_closes_other_keys_noop_witness :
    (key_callback GLFW_KEY_ESCAPE 0 GLFW_PRESS 0 init_state).shouldClose = true ∧
    loop_iterate 0 (key_callback GLFW_KEY_ESCAPE 0 GLFW_PRESS 0 init_state) =
      .exitWith EXIT_SUCCESS ∧
    loop_iterate 0 (glfwSetWindowShouldClose GLFW_TRUE init_state) =
      .exitWith EXIT_SUCCESS ∧
    EXIT_SUCCESS = 0 ∧
    key_callback 65 0 GLFW_PRESS 0 init_state = init_state :=
  escape_closes_other_keys_noop init_state init_state 65 0 GLFW_PRESS 0 0
    (by decide)
